import Mathlib

/-
Verification of the update-manager plugin (`main.py`).

The core routine `_check_and_perform_updates` is embedded as a pure function
over an explicit environment `UpdateEnv` that captures every external
interaction the routine performs:
  * whether the host's helper imports (`build_plug_list`, `PluginStatus`)
    succeeded at module load time (`deps_loaded`);
  * the computed plugin directory and whether `plug_path.is_dir()` holds;
  * the result of `build_plug_list(plug_path)` — which may raise, so it is
    an `Except`;
  * the optional test-mode dump of the inventory, which performs file I/O
    and may also raise;
  * the Update-Applier `self.context._star_manager.update_plugin(name, proxy)`,
    modelled as a function of the number of prior applier calls and the plugin
    name (the configured proxy is threaded through unchanged on every call and
    is absorbed into this function); a raise is an `Except.error`.

The scheduler lifecycle (`__init__` / `terminate`) is embedded separately as
`initPlugin` / `PluginState.terminate` over a small scheduler-state model.
-/

set_option autoImplicit false

namespace UpdateManager

/-- Status values carried by the records `build_plug_list` produces; the
routine only compares a record's status against `NEED_UPDATE`. -/
inductive PluginStatus where
  | INSTALLED
  | NEED_UPDATE
  | NOT_INSTALLED
  deriving DecidableEq, Repr

/-- One plugin-info dict as consumed by the routine: `p.get("name")` and
`p.get("status")` may each be absent, hence `Option`. -/
structure PluginRecord where
  name : Option String
  status : Option PluginStatus
  deriving DecidableEq, Repr

/-- Environment of one `_check_and_perform_updates` run: every external
effect the routine performs, made explicit. -/
structure UpdateEnv where
  deps_loaded : Bool
  plug_path : String
  plug_path_is_dir : Bool
  build_plug_list : Except String (List PluginRecord)
  test_mode : Bool
  test_write : Except String Unit
  update_plugin : Nat → String → Except String Unit

/-- Observable outcome of one run: the returned message string together with
the run's `successed_plugins` and `failed_plugins` lists and a trace of which
names the Update-Applier was invoked with (in order), plus whether the
Inventory Provider (`build_plug_list`) was invoked at all. -/
structure RunResult where
  message : String
  successes : List String
  failures : List String
  applier_calls : List String
  inventory_called : Bool
  deriving DecidableEq, Repr

/-- A single-quote character, for mirroring Python's `repr` of a string. -/
def sq : String := String.singleton (Char.ofNat 39)

/-- Python `repr` of a list of strings (as interpolated by
`f"...\n{successed_plugins}"`), for names containing no quote or escape
characters. -/
def pyListRepr (xs : List String) : String :=
  "[" ++ String.intercalate ", " (xs.map (fun s => sq ++ s ++ sq)) ++ "]"

/-- Python truthiness of `Except.ok` vs a raised exception. -/
def exceptOk (e : Except String Unit) : Bool :=
  match e with
  | .ok _ => true
  | .error _ => false

/-- The update loop of lines 127-146: iterate over `need_update_plugins`;
skip a record whose name is missing or empty (Python falsiness of
`p.get("name")`); otherwise call the Applier, appending the name to
`successed_plugins` on success and to `failed_plugins` on a raise.
State is `(successed_plugins, failed_plugins, applier-call trace)`; the
Applier is consulted at the index given by the number of prior calls. -/
def updateLoop (applier : Nat → String → Except String Unit) :
    List PluginRecord → List String → List String → List String →
    List String × List String × List String
  | [], succ, fail, calls => (succ, fail, calls)
  | p :: rest, succ, fail, calls =>
    match p.name with
    | none => updateLoop applier rest succ fail calls
    | some n =>
      if n = "" then updateLoop applier rest succ fail calls
      else
        match applier calls.length n with
        | .ok _ => updateLoop applier rest (succ ++ [n]) fail (calls ++ [n])
        | .error _ => updateLoop applier rest succ (fail ++ [n]) (calls ++ [n])

/-- The filter of lines 104-108: records whose `status` equals
`PluginStatus.NEED_UPDATE`. -/
def needUpdatePlugins (l : List PluginRecord) : List PluginRecord :=
  l.filter (fun p => p.status = some PluginStatus.NEED_UPDATE)

/-- Lines 104-155: everything after a successful `build_plug_list` call and
test-mode dump — filter, early return when nothing needs updating, the
update loop, and the composition of the final reply message. -/
def afterInventory (env : UpdateEnv) (all_plugins_info : List PluginRecord) :
    RunResult :=
  let need_update := needUpdatePlugins all_plugins_info
  if need_update.isEmpty then
    { message := "目前没有发现需要更新的插件。"
      successes := [], failures := [], applier_calls := []
      inventory_called := true }
  else
    let update_summary_messages :=
      ["发现 " ++ toString need_update.length ++ " 个插件需要更新。"]
    let r := updateLoop env.update_plugin need_update [] [] []
    let successed_plugins := r.1
    let failed_plugins := r.2.1
    let base := String.intercalate "\n" update_summary_messages
    let withFailures :=
      if failed_plugins.isEmpty then base
      else base ++ "\n\n注意：部分插件更新失败：" ++
        String.intercalate ", " failed_plugins ++ "。请检查机器人日志获取详细信息。"
    let final := withFailures ++ "\n成功更新 " ++
      toString successed_plugins.length ++ " 个插件。\n" ++
      pyListRepr successed_plugins
    { message := final
      successes := successed_plugins
      failures := failed_plugins
      applier_calls := r.2.2
      inventory_called := true }

/-- The outer `except Exception` handler of lines 157-160: any exception
raised inside the `try` block is converted into this returned summary. -/
def exceptionResult (e : String) : RunResult :=
  { message := "插件更新流程异常终止: " ++ e ++ "。请检查机器人日志。"
    successes := [], failures := [], applier_calls := []
    inventory_called := true }

/-- Lines 70-160, `_check_and_perform_updates`: dependency check, plugin-
directory check, then the `try` block — inventory fetch (which may raise),
optional test-mode dump (which may raise), filtering, the update loop and
message composition — with the outer handler converting any raise into a
returned summary. -/
def check_and_perform_updates (env : UpdateEnv) : RunResult :=
  if !env.deps_loaded then
    { message := "机器人内部依赖功能未加载，无法执行更新。"
      successes := [], failures := [], applier_calls := []
      inventory_called := false }
  else if !env.plug_path_is_dir then
    { message := "未找到插件目录 " ++ env.plug_path ++ "，无法执行更新。"
      successes := [], failures := [], applier_calls := []
      inventory_called := false }
  else
    match env.build_plug_list with
    | .error e => exceptionResult e
    | .ok all_plugins_info =>
      if env.test_mode then
        match env.test_write with
        | .error e => exceptionResult e
        | .ok _ => afterInventory env all_plugins_info
      else afterInventory env all_plugins_info

/-- The name a record contributes to the run, if any: `some n` when the
record carries a non-empty name, `none` when the record is skipped by the
loop's falsiness check. -/
def validName (p : PluginRecord) : Option String :=
  match p.name with
  | none => none
  | some n => if n = "" then none else some n

/-- The names of a record list that the loop actually submits to the
Applier, in order. -/
def planNames (l : List PluginRecord) : List String :=
  l.filterMap validName

/-! Scheduler lifecycle (`__init__` lines 33-61, `terminate` lines 175-181). -/

/-- A job registered with the scheduler (`add_job` with the interval in
hours, the job id and the job name). -/
structure SchedJob where
  hours : Int
  id : String
  jobName : String
  deriving DecidableEq, Repr

/-- Modelled from the collaborator library: an `AsyncIOScheduler` holds its
registered jobs and a `running` flag; `start()` sets `running`; `shutdown()`
clears it. -/
structure Scheduler where
  jobs : List SchedJob
  running : Bool
  deriving DecidableEq, Repr

/-- Modelled from the collaborator library: `shutdown()` stops the
scheduler, after which `running` is `False`. -/
def Scheduler.shutdown (s : Scheduler) : Scheduler :=
  { s with running := false }

/-- The plugin state relevant to the scheduler lifecycle: the resolved
`interval_hours` and the `scheduler` attribute, which is `none` exactly when
`__init__` never assigned it. -/
structure PluginState where
  interval_hours : Int
  scheduler : Option Scheduler
  deriving DecidableEq, Repr

/-- Python truthiness of a number: zero is falsy. -/
def intTruthy (n : Int) : Bool := n != 0

/-- Lines 33-61 of `__init__`, restricted to the scheduling state:
`interval_hours = config.get("interval_hours", 24)`; when that value is
truthy, create an `AsyncIOScheduler`, register the interval job with
`hours=interval_hours`, and start it; otherwise the `scheduler` attribute
is never assigned. -/
def initPlugin (cfg_interval_hours : Option Int) : PluginState :=
  let h := cfg_interval_hours.getD 24
  if intTruthy h then
    { interval_hours := h
      scheduler := some
        { jobs := [{ hours := h, id := "scheduled_plugin_update",
                     jobName := "Scheduled Plugin Update Check" }]
          running := true } }
  else
    { interval_hours := h, scheduler := none }

/-- Lines 175-181, `terminate`: reads `self.scheduler.running` — an
attribute-access error when `__init__` never assigned `scheduler` — and
calls `shutdown()` only when the scheduler is running. -/
def PluginState.terminate (st : PluginState) : Except String PluginState :=
  match st.scheduler with
  | none => Except.error "AttributeError: no attribute scheduler"
  | some sch =>
    if sch.running then
      Except.ok { st with scheduler := some sch.shutdown }
    else
      Except.ok st

/-! Characterization of the update loop. -/

/-- Reference form of the loop's outcome on the submitted names: starting
from call index `k`, split the names into (successes, failures) according to
the Applier's verdict at each call index. -/
def loopOutcomes (applier : Nat → String → Except String Unit) :
    List String → Nat → List String × List String
  | [], _ => ([], [])
  | n :: rest, k =>
    let r := loopOutcomes applier rest (k + 1)
    match applier k n with
    | .ok _ => (n :: r.1, r.2)
    | .error _ => (r.1, n :: r.2)

/-! Concrete sample data used by the witness theorems. -/

def recA : PluginRecord := { name := some "A", status := some PluginStatus.NEED_UPDATE }

def recB : PluginRecord := { name := some "B", status := some PluginStatus.INSTALLED }

def recC : PluginRecord := { name := some "C", status := some PluginStatus.NEED_UPDATE }

def recNoName : PluginRecord := { name := some "", status := some PluginStatus.NEED_UPDATE }

def sampleInv : List PluginRecord := [recA, recB, recC]

/-- An Applier that raises exactly for the plugin named "C". -/
def sampleApplier : Nat → String → Except String Unit :=
  fun _ n => if n = "C" then Except.error "update failed" else Except.ok ()

def sampleEnv : UpdateEnv :=
  { deps_loaded := true
    plug_path := "/astrbot/data/plugins"
    plug_path_is_dir := true
    build_plug_list := Except.ok sampleInv
    test_mode := false
    test_write := Except.ok ()
    update_plugin := sampleApplier }

def envNoUpdates : UpdateEnv :=
  { sampleEnv with build_plug_list := Except.ok [recB] }

def envAllOk : UpdateEnv :=
  { sampleEnv with update_plugin := fun _ _ => Except.ok () }

def envSkip : UpdateEnv :=
  { sampleEnv with build_plug_list := Except.ok ([recA] ++ recNoName :: [recC]) }

def envRaise : UpdateEnv :=
  { sampleEnv with build_plug_list := Except.error "provider failure" }

def envNoDir : UpdateEnv :=
  { sampleEnv with plug_path_is_dir := false }

def sampleSched : Scheduler :=
  { jobs := [{ hours := 1, id := "scheduled_plugin_update",
               jobName := "Scheduled Plugin Update Check" }]
    running := true }

theorem planNames_nil : planNames [] = [] := rfl

theorem planNames_cons (p : PluginRecord) (l : List PluginRecord) :
    planNames (p :: l) =
      match validName p with
      | none => planNames l
      | some n => n :: planNames l := by
  cases h : validName p <;> simp [planNames, List.filterMap_cons, h]

/-- Unfolding equation for `updateLoop` at a cons cell. -/
theorem updateLoop_cons (applier : Nat → String → Except String Unit)
    (p : PluginRecord) (rest : List PluginRecord)
    (succ fail calls : List String) :
    updateLoop applier (p :: rest) succ fail calls =
      match p.name with
      | none => updateLoop applier rest succ fail calls
      | some n =>
        if n = "" then updateLoop applier rest succ fail calls
        else
          match applier calls.length n with
          | .ok _ => updateLoop applier rest (succ ++ [n]) fail (calls ++ [n])
          | .error _ => updateLoop applier rest succ (fail ++ [n]) (calls ++ [n]) :=
  rfl

/-- The update loop equals its reference form: the final state extends the
initial one by `loopOutcomes` over the valid names, starting at the call
index given by the prior call count, and the Applier is called exactly on
the valid names in order. -/
theorem updateLoop_eq (applier : Nat → String → Except String Unit)
    (ps : List PluginRecord) (succ fail calls : List String) :
    updateLoop applier ps succ fail calls =
      (succ ++ (loopOutcomes applier (planNames ps) calls.length).1,
       fail ++ (loopOutcomes applier (planNames ps) calls.length).2,
       calls ++ planNames ps) := by
  induction ps generalizing succ fail calls with
  | nil => simp [updateLoop, planNames, loopOutcomes]
  | cons p rest ih =>
    rw [planNames_cons, updateLoop_cons]
    cases hn : p.name with
    | none =>
      have hv : validName p = none := by simp [validName, hn]
      rw [hv]
      exact ih succ fail calls
    | some n =>
      by_cases he : n = ""
      · have hv : validName p = none := by simp [validName, hn, he]
        rw [hv]
        simpa [he] using ih succ fail calls
      · have hv : validName p = some n := by simp [validName, hn, he]
        rw [hv]
        cases hc : applier calls.length n with
        | ok u =>
          cases u
          simp [he, hc, ih (succ ++ [n]) fail (calls ++ [n]), loopOutcomes]
        | error e =>
          simp [he, hc, ih succ (fail ++ [n]) (calls ++ [n]), loopOutcomes]

/-- The two outcome lists together are a permutation of the submitted
names. -/
theorem loopOutcomes_perm (applier : Nat → String → Except String Unit)
    (names : List String) (k : Nat) :
    ((loopOutcomes applier names k).1 ++
      (loopOutcomes applier names k).2).Perm names := by
  induction names generalizing k with
  | nil => simp [loopOutcomes]
  | cons n rest ih =>
    cases hc : applier k n with
    | ok u =>
      simpa [loopOutcomes, hc] using (ih (k + 1)).cons n
    | error e =>
      have h1 : ((loopOutcomes applier rest (k + 1)).1 ++
          n :: (loopOutcomes applier rest (k + 1)).2).Perm
          (n :: ((loopOutcomes applier rest (k + 1)).1 ++
            (loopOutcomes applier rest (k + 1)).2)) :=
        List.perm_middle
      simpa [loopOutcomes, hc] using h1.trans ((ih (k + 1)).cons n)

/-- When the Applier's verdict is a function of the name alone (failing
exactly on the designated names), the outcome lists are the two filters of
the submitted names. -/
theorem loopOutcomes_filter (applier : Nat → String → Except String Unit)
    (bad : String → Bool)
    (h : ∀ k n, exceptOk (applier k n) = !bad n)
    (names : List String) (k : Nat) :
    loopOutcomes applier names k =
      (names.filter (fun n => !bad n), names.filter (fun n => bad n)) := by
  induction names generalizing k with
  | nil => simp [loopOutcomes]
  | cons n rest ih =>
    have hn := h k n
    cases hc : applier k n with
    | ok u =>
      have hb : bad n = false := by
        rw [hc] at hn
        simpa [exceptOk] using hn.symm
      simp [loopOutcomes, hc, ih (k + 1), List.filter_cons, hb]
    | error e =>
      have hb : bad n = true := by
        rw [hc] at hn
        simpa [exceptOk] using hn.symm
      simp [loopOutcomes, hc, ih (k + 1), List.filter_cons, hb]

/-- Field characterization of `afterInventory`: its success/failure lists
and Applier-call trace are `loopOutcomes` over the valid names of the
NEED_UPDATE-filtered inventory, starting at call index zero, and the
Inventory Provider was invoked. -/
theorem afterInventory_fields (env : UpdateEnv)
    (all_plugins_info : List PluginRecord) :
    (afterInventory env all_plugins_info).successes =
      (loopOutcomes env.update_plugin
        (planNames (needUpdatePlugins all_plugins_info)) 0).1 ∧
    (afterInventory env all_plugins_info).failures =
      (loopOutcomes env.update_plugin
        (planNames (needUpdatePlugins all_plugins_info)) 0).2 ∧
    (afterInventory env all_plugins_info).applier_calls =
      planNames (needUpdatePlugins all_plugins_info) ∧
    (afterInventory env all_plugins_info).inventory_called = true := by
  by_cases h : (needUpdatePlugins all_plugins_info).isEmpty
  · have hnil : needUpdatePlugins all_plugins_info = [] :=
      List.isEmpty_iff.mp h
    simp [afterInventory, h, hnil, planNames, loopOutcomes]
  · have hloop := updateLoop_eq env.update_plugin
      (needUpdatePlugins all_plugins_info) [] [] []
    simp only [List.length_nil, List.nil_append] at hloop
    simp [afterInventory, h, hloop]

/-- Field characterization of a full run that reaches the update loop:
dependencies loaded, plugin directory present, inventory fetched without a
raise, and the test-mode dump (when enabled) not raising. -/
theorem check_fields (env : UpdateEnv) (inv : List PluginRecord)
    (hd : env.deps_loaded = true)
    (hp : env.plug_path_is_dir = true)
    (hb : env.build_plug_list = Except.ok inv)
    (ht : env.test_mode = true → env.test_write = Except.ok ()) :
    (check_and_perform_updates env).successes =
      (loopOutcomes env.update_plugin (planNames (needUpdatePlugins inv)) 0).1 ∧
    (check_and_perform_updates env).failures =
      (loopOutcomes env.update_plugin (planNames (needUpdatePlugins inv)) 0).2 ∧
    (check_and_perform_updates env).applier_calls =
      planNames (needUpdatePlugins inv) ∧
    (check_and_perform_updates env).inventory_called = true := by
  have hai := afterInventory_fields env inv
  unfold check_and_perform_updates
  rw [hd, hp, hb]
  cases hm : env.test_mode with
  | false => simpa using hai
  | true =>
    rw [ht hm]
    simpa using hai

theorem planNames_cons_of_none (p : PluginRecord) (l : List PluginRecord)
    (hv : validName p = none) : planNames (p :: l) = planNames l := by
  simp [planNames, List.filterMap_cons, hv]

theorem planNames_cons_of_some (p : PluginRecord) (l : List PluginRecord)
    (n : String) (hv : validName p = some n) :
    planNames (p :: l) = n :: planNames l := by
  simp [planNames, List.filterMap_cons, hv]

/-- The number of names submitted to the Applier plus the number of records
skipped for a missing or empty name equals the size of the update plan. -/
theorem planNames_length (l : List PluginRecord) :
    (planNames l).length + l.countP (fun p => (validName p).isNone) =
      l.length := by
  induction l with
  | nil => simp [planNames]
  | cons p rest ih =>
    cases hv : validName p with
    | none =>
      rw [planNames_cons_of_none p rest hv]
      simp [List.countP_cons, hv]
      omega
    | some n =>
      rw [planNames_cons_of_some p rest n hv]
      simp [List.countP_cons, hv]
      omega

/-- When every record of a list carries a non-empty name, the submitted
names are exactly the records' names in order. -/
theorem planNames_all_valid (l : List PluginRecord)
    (h : ∀ p ∈ l, ∃ n, p.name = some n ∧ n ≠ "") :
    planNames l = l.filterMap PluginRecord.name := by
  induction l with
  | nil => rfl
  | cons p rest ih =>
    obtain ⟨n, hn, hne⟩ := h p (List.mem_cons_self p rest)
    have hv : validName p = some n := by simp [validName, hn, hne]
    rw [planNames_cons_of_some p rest n hv]
    rw [List.filterMap_cons, hn]
    rw [ih (fun q hq => h q (List.mem_cons_of_mem p hq))]

/-!
The claims.
-/

/-- Shared helper: a run that reaches the update loop, driven by an Applier
whose verdict fails exactly on the names designated by `bad`, produces the
two filters of the submitted names. -/
theorem check_filter_outcomes (env : UpdateEnv)
    (inv : List PluginRecord) (bad : String → Bool)
    (hd : env.deps_loaded = true)
    (hp : env.plug_path_is_dir = true)
    (hb : env.build_plug_list = Except.ok inv)
    (ht : env.test_mode = true → env.test_write = Except.ok ())
    (ha : ∀ k n, exceptOk (env.update_plugin k n) = !bad n) :
    (check_and_perform_updates env).failures =
      (planNames (needUpdatePlugins inv)).filter (fun n => bad n) ∧
    (check_and_perform_updates env).successes =
      (planNames (needUpdatePlugins inv)).filter (fun n => !bad n) := by
  obtain ⟨hs, hf, _, _⟩ := check_fields env inv hd hp hb ht
  rw [hs, hf, loopOutcomes_filter env.update_plugin bad ha]
  exact ⟨rfl, rfl⟩

/-- C1: partial-failure isolation. For every environment that reaches the
update loop (dependencies loaded, plugin directory present, inventory
fetched, test-mode dump not raising) and every Applier whose verdict fails
exactly on the names designated by `bad`, the run completes and its
`failed_plugins` list is exactly the designated subset of the submitted
names in processing order, while `successed_plugins` is exactly the
complement in processing order. -/
theorem C1_partial_failure_isolation (env : UpdateEnv)
    (inv : List PluginRecord) (bad : String → Bool)
    (hd : env.deps_loaded = true)
    (hp : env.plug_path_is_dir = true)
    (hb : env.build_plug_list = Except.ok inv)
    (ht : env.test_mode = true → env.test_write = Except.ok ())
    (ha : ∀ k n, exceptOk (env.update_plugin k n) = !bad n) :
    (check_and_perform_updates env).failures =
      (planNames (needUpdatePlugins inv)).filter (fun n => bad n) ∧
    (check_and_perform_updates env).successes =
      (planNames (needUpdatePlugins inv)).filter (fun n => !bad n) :=
  check_filter_outcomes env inv bad hd hp hb ht ha

/-- C3: for every inventory with no NEED_UPDATE record, the run returns the
"no updates needed" message with empty success and failure lists, and the
Update-Applier is never invoked. -/
theorem C3_no_updates_needed (env : UpdateEnv) (inv : List PluginRecord)
    (hd : env.deps_loaded = true)
    (hp : env.plug_path_is_dir = true)
    (hb : env.build_plug_list = Except.ok inv)
    (ht : env.test_mode = true → env.test_write = Except.ok ())
    (hempty : needUpdatePlugins inv = []) :
    check_and_perform_updates env =
      { message := "目前没有发现需要更新的插件。"
        successes := [], failures := [], applier_calls := []
        inventory_called := true } := by
  unfold check_and_perform_updates
  rw [hd, hp, hb]
  have hres : afterInventory env inv =
      { message := "目前没有发现需要更新的插件。"
        successes := [], failures := [], applier_calls := []
        inventory_called := true } := by
    simp [afterInventory, hempty]
  cases hm : env.test_mode with
  | false => simpa using hres
  | true =>
    rw [ht hm]
    simpa using hres

/-- C4: when every NEED_UPDATE record carries a non-empty name and the
Applier succeeds on every call, `successed_plugins` is the ordered list of
those records' names — the filter preserves inventory order, with no
sorting and no deduplication — and `failed_plugins` is empty. -/
theorem C4_all_success_ordered (env : UpdateEnv) (inv : List PluginRecord)
    (hd : env.deps_loaded = true)
    (hp : env.plug_path_is_dir = true)
    (hb : env.build_plug_list = Except.ok inv)
    (ht : env.test_mode = true → env.test_write = Except.ok ())
    (hnames : ∀ p ∈ needUpdatePlugins inv, ∃ n, p.name = some n ∧ n ≠ "")
    (ha : ∀ k n, exceptOk (env.update_plugin k n) = true) :
    (check_and_perform_updates env).successes =
      (needUpdatePlugins inv).filterMap PluginRecord.name ∧
    (check_and_perform_updates env).failures = [] := by
  have ha2 : ∀ k n, exceptOk (env.update_plugin k n) = !(fun _ : String => false) n := by
    simpa using ha
  obtain ⟨hf, hs⟩ :=
    check_filter_outcomes env inv (fun _ => false) hd hp hb ht ha2
  refine ⟨?_, ?_⟩
  · rw [hs]
    simp [planNames_all_valid (needUpdatePlugins inv) hnames]
  · rw [hf]
    simp

/-- C2: accounting invariant. For every run that reaches the update loop,
over an inventory whose submitted names are distinct (the Inventory
Provider guarantees names unique within a run): every name in
`successed_plugins` or `failed_plugins` appeared among the update plan's
names, the two lists are disjoint, and their lengths sum to the plan's
length minus the number of records skipped for a missing or empty name. -/
theorem C2_accounting_invariant (env : UpdateEnv) (inv : List PluginRecord)
    (hd : env.deps_loaded = true)
    (hp : env.plug_path_is_dir = true)
    (hb : env.build_plug_list = Except.ok inv)
    (ht : env.test_mode = true → env.test_write = Except.ok ())
    (hnd : (planNames (needUpdatePlugins inv)).Nodup) :
    (∀ n ∈ (check_and_perform_updates env).successes,
      n ∈ planNames (needUpdatePlugins inv)) ∧
    (∀ n ∈ (check_and_perform_updates env).failures,
      n ∈ planNames (needUpdatePlugins inv)) ∧
    (∀ n ∈ (check_and_perform_updates env).successes,
      n ∉ (check_and_perform_updates env).failures) ∧
    (check_and_perform_updates env).successes.length +
        (check_and_perform_updates env).failures.length =
      (needUpdatePlugins inv).length -
        (needUpdatePlugins inv).countP (fun p => (validName p).isNone) := by
  obtain ⟨hs, hf, _, _⟩ := check_fields env inv hd hp hb ht
  have hperm := loopOutcomes_perm env.update_plugin
    (planNames (needUpdatePlugins inv)) 0
  have hsub := hperm.subset
  have happnd : ((loopOutcomes env.update_plugin
      (planNames (needUpdatePlugins inv)) 0).1 ++
      (loopOutcomes env.update_plugin
      (planNames (needUpdatePlugins inv)) 0).2).Nodup :=
    hperm.nodup_iff.mpr hnd
  have hdisj := (List.nodup_append.mp happnd).2.2
  have hlen := hperm.length_eq
  rw [List.length_append] at hlen
  have hcount := planNames_length (needUpdatePlugins inv)
  refine ⟨?_, ?_, ?_, ?_⟩
  · intro n hn
    rw [hs] at hn
    exact hsub (List.mem_append_left _ hn)
  · intro n hn
    rw [hf] at hn
    exact hsub (List.mem_append_right _ hn)
  · intro n hn hn2
    rw [hs] at hn
    rw [hf] at hn2
    exact hdisj hn hn2
  · rw [hs, hf]
    omega

/-- C5: a NEED_UPDATE record whose name is missing or empty is skipped —
the Applier is invoked exactly on the valid submitted names (so never for
the skipped record), and the run's successes, failures and Applier-call
trace are identical to those of the same run on the inventory with the
skipped record removed. -/
theorem C5_skip_invalid_name (env : UpdateEnv)
    (pre post : List PluginRecord) (p : PluginRecord)
    (hd : env.deps_loaded = true)
    (hp : env.plug_path_is_dir = true)
    (hb : env.build_plug_list = Except.ok (pre ++ p :: post))
    (ht : env.test_mode = true → env.test_write = Except.ok ())
    (hstatus : p.status = some PluginStatus.NEED_UPDATE)
    (hname : p.name = none ∨ p.name = some "") :
    (check_and_perform_updates env).applier_calls =
      planNames (needUpdatePlugins (pre ++ p :: post)) ∧
    (check_and_perform_updates env).successes =
      (check_and_perform_updates
        { env with build_plug_list := Except.ok (pre ++ post) }).successes ∧
    (check_and_perform_updates env).failures =
      (check_and_perform_updates
        { env with build_plug_list := Except.ok (pre ++ post) }).failures ∧
    (check_and_perform_updates env).applier_calls =
      (check_and_perform_updates
        { env with build_plug_list := Except.ok (pre ++ post) }).applier_calls := by
  have hv : validName p = none := by
    rcases hname with h | h <;> simp [validName, h]
  have hplan : planNames (needUpdatePlugins (pre ++ p :: post)) =
      planNames (needUpdatePlugins (pre ++ post)) := by
    have h1 : needUpdatePlugins (pre ++ p :: post) =
        needUpdatePlugins pre ++ p :: needUpdatePlugins post := by
      simp [needUpdatePlugins, List.filter_append, List.filter_cons, hstatus]
    have h2 : needUpdatePlugins (pre ++ post) =
        needUpdatePlugins pre ++ needUpdatePlugins post := by
      simp [needUpdatePlugins, List.filter_append]
    rw [h1, h2]
    simp only [planNames, List.filterMap_append, List.filterMap_cons, hv]
  obtain ⟨hs1, hf1, hc1, _⟩ :=
    check_fields env (pre ++ p :: post) hd hp hb ht
  obtain ⟨hs2, hf2, hc2, _⟩ :=
    check_fields { env with build_plug_list := Except.ok (pre ++ post) }
      (pre ++ post) hd hp rfl ht
  refine ⟨hc1, ?_, ?_, ?_⟩
  · rw [hs1, hs2, hplan]
  · rw [hf1, hf2, hplan]
  · rw [hc1, hc2, hplan]

/-- C6: the outer exception boundary. In a run with dependencies loaded and
the plugin directory present, a raise from the Inventory Provider, or from
the test-mode inventory dump, is caught at the outermost handler and
converted into the returned "流程异常终止" summary — it is not propagated
to the caller. (The embedding of the routine is a total function: every
environment, including every Applier behavior, yields a returned
`RunResult`.) -/
theorem C6_never_raises (env : UpdateEnv)
    (hd : env.deps_loaded = true)
    (hp : env.plug_path_is_dir = true) :
    (∀ e, env.build_plug_list = Except.error e →
      check_and_perform_updates env = exceptionResult e) ∧
    (∀ inv e, env.build_plug_list = Except.ok inv →
      env.test_mode = true → env.test_write = Except.error e →
      check_and_perform_updates env = exceptionResult e) := by
  constructor
  · intro e he
    unfold check_and_perform_updates
    rw [hd, hp, he]
    simp
  · intro inv e hbl hm hw
    unfold check_and_perform_updates
    rw [hd, hp, hbl, hm, hw]
    simp

/-- C7: when the plugin directory is not an existing directory, the run
returns immediately with the message naming the missing path; the
Inventory Provider is not invoked and the Applier-call trace is empty. -/
theorem C7_missing_install_root (env : UpdateEnv)
    (hd : env.deps_loaded = true)
    (hp : env.plug_path_is_dir = false) :
    check_and_perform_updates env =
      { message := "未找到插件目录 " ++ env.plug_path ++ "，无法执行更新。"
        successes := [], failures := [], applier_calls := []
        inventory_called := false } := by
  unfold check_and_perform_updates
  rw [hd, hp]
  simp

/-- C8 counterexample: with the interval-hours key absent from the
configuration, `__init__` resolves `config.get("interval_hours", 24)` to 24
— a truthy value — and does create and start a timer job, refuting the
claim that an absent value disables the scheduled trigger. -/
theorem C8_counterexample :
    (initPlugin none).scheduler =
      some { jobs := [{ hours := 24, id := "scheduled_plugin_update",
                        jobName := "Scheduled Plugin Update Check" }]
             running := true } := by
  decide

/-- C8 amended: a configured value of zero (falsy) disables scheduling —
no scheduler object and no timer job are created; an absent value defaults
to 24 hours and creates and starts the interval job; any nonzero configured
value creates and starts the interval job at that value. -/
theorem C8_amended_scheduling (cfg : Option Int) :
    (cfg = some 0 → (initPlugin cfg).scheduler = none) ∧
    (cfg = none → (initPlugin cfg).scheduler =
      some { jobs := [{ hours := 24, id := "scheduled_plugin_update",
                        jobName := "Scheduled Plugin Update Check" }]
             running := true }) ∧
    (∀ h : Int, cfg = some h → h ≠ 0 → (initPlugin cfg).scheduler =
      some { jobs := [{ hours := h, id := "scheduled_plugin_update",
                        jobName := "Scheduled Plugin Update Check" }]
             running := true }) := by
  refine ⟨?_, ?_, ?_⟩
  · intro h0
    subst h0
    decide
  · intro h0
    subst h0
    decide
  · intro h hc hne
    subst hc
    simp [initPlugin, intTruthy, bne_iff_ne, hne]

/-- C9: idempotent shutdown. When the scheduler attribute was assigned and
the scheduler is running, the first `terminate` call shuts it down (the
`running` flag is cleared) and a second `terminate` call on the resulting
state completes without error as a no-op. -/
theorem C9_terminate_idempotent (st : PluginState) (sch : Scheduler)
    (hs : st.scheduler = some sch)
    (hr : sch.running = true) :
    PluginState.terminate st =
      Except.ok { st with scheduler := some { sch with running := false } } ∧
    PluginState.terminate
        { st with scheduler := some { sch with running := false } } =
      Except.ok { st with scheduler := some { sch with running := false } } := by
  constructor
  · unfold PluginState.terminate
    rw [hs]
    simp [hr, Scheduler.shutdown]
  · unfold PluginState.terminate
    simp [Scheduler.shutdown]

/-- C10: when the plugin is constructed with a falsy interval value, the
scheduler attribute is never assigned, and `terminate` then raises an
attribute-access error instead of completing; `terminate` completes without
error only when a scheduler was created at construction. -/
theorem C10_terminate_requires_scheduler :
    (initPlugin (some 0)).scheduler = none ∧
    PluginState.terminate (initPlugin (some 0)) =
      Except.error "AttributeError: no attribute scheduler" ∧
    (∀ cfg : Option Int, ∀ st : PluginState,
      PluginState.terminate (initPlugin cfg) = Except.ok st →
      (initPlugin cfg).scheduler ≠ none) := by
  refine ⟨by decide, by rfl, ?_⟩
  intro cfg st hok
  cases hsch : (initPlugin cfg).scheduler with
  | none =>
    unfold PluginState.terminate at hok
    rw [hsch] at hok
    exact absurd hok (by simp)
  | some sch => simp [hsch]

theorem C1_witness :
    (check_and_perform_updates sampleEnv).failures =
      (planNames (needUpdatePlugins sampleInv)).filter (fun n => n == "C") ∧
    (check_and_perform_updates sampleEnv).successes =
      (planNames (needUpdatePlugins sampleInv)).filter (fun n => !(n == "C")) :=
  C1_partial_failure_isolation sampleEnv sampleInv (fun n => n == "C")
    rfl rfl rfl (fun hm => absurd hm (by decide))
    (by
      intro k n
      by_cases h : n = "C" <;>
        simp [sampleEnv, sampleApplier, h, exceptOk])

theorem C2_witness :
    (∀ n ∈ (check_and_perform_updates sampleEnv).successes,
      n ∈ planNames (needUpdatePlugins sampleInv)) ∧
    (∀ n ∈ (check_and_perform_updates sampleEnv).failures,
      n ∈ planNames (needUpdatePlugins sampleInv)) ∧
    (∀ n ∈ (check_and_perform_updates sampleEnv).successes,
      n ∉ (check_and_perform_updates sampleEnv).failures) ∧
    (check_and_perform_updates sampleEnv).successes.length +
        (check_and_perform_updates sampleEnv).failures.length =
      (needUpdatePlugins sampleInv).length -
        (needUpdatePlugins sampleInv).countP (fun p => (validName p).isNone) :=
  C2_accounting_invariant sampleEnv sampleInv rfl rfl rfl
    (fun hm => absurd hm (by decide)) (by decide)

theorem C3_witness :
    check_and_perform_updates envNoUpdates =
      { message := "目前没有发现需要更新的插件。"
        successes := [], failures := [], applier_calls := []
        inventory_called := true } :=
  C3_no_updates_needed envNoUpdates [recB] rfl rfl rfl
    (fun hm => absurd hm (by decide)) (by decide)

theorem C4_witness :
    (check_and_perform_updates envAllOk).successes =
      (needUpdatePlugins sampleInv).filterMap PluginRecord.name ∧
    (check_and_perform_updates envAllOk).failures = [] :=
  C4_all_success_ordered envAllOk sampleInv rfl rfl rfl
    (fun hm => absurd hm (by decide))
    (by
      have hlist : needUpdatePlugins sampleInv = [recA, recC] := by decide
      intro p hp
      rw [hlist] at hp
      simp only [List.mem_cons, List.not_mem_nil, or_false] at hp
      rcases hp with h | h <;> subst h
      · exact ⟨"A", rfl, by decide⟩
      · exact ⟨"C", rfl, by decide⟩)
    (fun k n => rfl)

theorem C5_witness :
    (check_and_perform_updates envSkip).applier_calls =
      planNames (needUpdatePlugins ([recA] ++ recNoName :: [recC])) ∧
    (check_and_perform_updates envSkip).successes =
      (check_and_perform_updates
        { envSkip with build_plug_list := Except.ok ([recA] ++ [recC]) }).successes ∧
    (check_and_perform_updates envSkip).failures =
      (check_and_perform_updates
        { envSkip with build_plug_list := Except.ok ([recA] ++ [recC]) }).failures ∧
    (check_and_perform_updates envSkip).applier_calls =
      (check_and_perform_updates
        { envSkip with build_plug_list := Except.ok ([recA] ++ [recC]) }).applier_calls :=
  C5_skip_invalid_name envSkip [recA] [recC] recNoName rfl rfl rfl
    (fun hm => absurd hm (by decide)) (by decide) (Or.inr rfl)

theorem C6_witness :
    (∀ e, envRaise.build_plug_list = Except.error e →
      check_and_perform_updates envRaise = exceptionResult e) ∧
    (∀ inv e, envRaise.build_plug_list = Except.ok inv →
      envRaise.test_mode = true → envRaise.test_write = Except.error e →
      check_and_perform_updates envRaise = exceptionResult e) :=
  C6_never_raises envRaise rfl rfl

theorem C7_witness :
    check_and_perform_updates envNoDir =
      { message := "未找到插件目录 " ++ envNoDir.plug_path ++ "，无法执行更新。"
        successes := [], failures := [], applier_calls := []
        inventory_called := false } :=
  C7_missing_install_root envNoDir rfl rfl

theorem C8_amended_witness :
    (initPlugin (some 0)).scheduler = none ∧
    (initPlugin none).scheduler =
      some { jobs := [{ hours := 24, id := "scheduled_plugin_update",
                        jobName := "Scheduled Plugin Update Check" }]
             running := true } ∧
    (initPlugin (some 5)).scheduler =
      some { jobs := [{ hours := 5, id := "scheduled_plugin_update",
                        jobName := "Scheduled Plugin Update Check" }]
             running := true } :=
  ⟨(C8_amended_scheduling (some 0)).1 rfl,
   (C8_amended_scheduling none).2.1 rfl,
   (C8_amended_scheduling (some 5)).2.2 5 rfl (by decide)⟩

theorem C9_witness :
    PluginState.terminate (initPlugin (some 1)) =
      Except.ok { initPlugin (some 1) with
        scheduler := some { sampleSched with running := false } } ∧
    PluginState.terminate { initPlugin (some 1) with
        scheduler := some { sampleSched with running := false } } =
      Except.ok { initPlugin (some 1) with
        scheduler := some { sampleSched with running := false } } :=
  C9_terminate_idempotent (initPlugin (some 1)) sampleSched (by decide) rfl

theorem C10_witness : (initPlugin none).scheduler ≠ none :=
  C10_terminate_requires_scheduler.2.2 none
    { interval_hours := 24
      scheduler := some { jobs := [{ hours := 24, id := "scheduled_plugin_update",
                                     jobName := "Scheduled Plugin Update Check" }]
                          running := false } }
    (by rfl)

end UpdateManager
